import Mathlib

/-!
Shallow embedding of the HTTP value types of tiny-http (`src/common.rs`):
`StatusCode`, `Header`, `HeaderField`, `Method` and `HTTPVersion`, together
with proofs about their parsing, formatting, comparison and lookup behaviour.

Strings are modelled by Lean `String` (a list of characters); Rust's byte-wise
ASCII operations act identically on the character lists involved.  Machine
integers (`u16`, `usize`) are modelled by `Nat`, with an explicit `% 2 ^ 16`
truncation where the Rust code narrows to `u16`.
-/

namespace TinyHttp

/-- ASCII lower-casing of one character, as in Rust's `to_ascii_lowercase`:
characters `A`..`Z` (code points 65..90) are shifted by 32, everything else is
unchanged. -/
def asciiLower (c : Char) : Char :=
  if 65 ≤ c.toNat ∧ c.toNat ≤ 90 then Char.ofNat (c.toNat + 32) else c

/-- Rust `char::is_whitespace`: the Unicode `White_Space` code points. -/
def isWs (c : Char) : Bool :=
  c.toNat = 0x9 || c.toNat = 0xA || c.toNat = 0xB || c.toNat = 0xC ||
  c.toNat = 0xD || c.toNat = 0x20 || c.toNat = 0x85 || c.toNat = 0xA0 ||
  c.toNat = 0x1680 || (0x2000 ≤ c.toNat && c.toNat ≤ 0x200A) ||
  c.toNat = 0x2028 || c.toNat = 0x2029 || c.toNat = 0x202F ||
  c.toNat = 0x205F || c.toNat = 0x3000

/-- Rust `eq_ignore_ascii_case`: same length and ASCII-case-folded equality at
every position. -/
def eqIgnoreAsciiCase (a b : List Char) : Bool :=
  a.length == b.length &&
    (a.zip b).all fun p => asciiLower p.1 == asciiLower p.2

/-- Rust `str::trim`: drop whitespace from both ends. -/
def listTrim (l : List Char) : List Char :=
  ((l.dropWhile isWs).reverse.dropWhile isWs).reverse

/-- `str::trim` lifted to `String`. -/
def strTrim (s : String) : String :=
  ⟨listTrim s.data⟩

/-- `pub struct StatusCode(pub u16)`; the wrapped code, as a natural number
below `2 ^ 16`. -/
structure StatusCode where
  code : Nat
deriving DecidableEq

/-- `StatusCode::as_u16`: returns the stored value verbatim. -/
def StatusCode.asU16 (s : StatusCode) : Nat :=
  s.code

/-- `StatusCode::from_u16` together with the `From` impls for wider integer
types: any numeric input is truncated to 16 bits (`as u16`) and wrapped. -/
def StatusCode.fromNumeric (n : Nat) : StatusCode :=
  ⟨n % 2 ^ 16⟩

/-- The match arms of `StatusCode::get_default_reason_phrase`, in source
order, as an association list. -/
def reasonPhraseTable : List (Nat × String) :=
  [(100, "Continue"),
   (101, "Switching Protocols"),
   (102, "Processing"),
   (118, "Connection timed out"),
   (200, "OK"),
   (201, "Created"),
   (202, "Accepted"),
   (203, "Non-Authoritative Information"),
   (204, "No Content"),
   (205, "Reset Content"),
   (206, "Partial Content"),
   (207, "Multi-Status"),
   (210, "Content Different"),
   (300, "Multiple Choices"),
   (301, "Moved Permanently"),
   (302, "Found"),
   (303, "See Other"),
   (304, "Not Modified"),
   (305, "Use Proxy"),
   (307, "Temporary Redirect"),
   (400, "Bad Request"),
   (401, "Unauthorized"),
   (402, "Payment Required"),
   (403, "Forbidden"),
   (404, "Not Found"),
   (405, "Method Not Allowed"),
   (406, "Not Acceptable"),
   (407, "Proxy Authentication Required"),
   (408, "Request Time-out"),
   (409, "Conflict"),
   (410, "Gone"),
   (411, "Length Required"),
   (412, "Precondition Failed"),
   (413, "Request Entity Too Large"),
   (414, "Reques-URI Too Large"),
   (415, "Unsupported Media Type"),
   (416, "Request range not satisfiable"),
   (417, "Expectation Failed"),
   (500, "Internal Server Error"),
   (501, "Not Implemented"),
   (502, "Bad Gateway"),
   (503, "Service Unavailable"),
   (504, "Gateway Time-out"),
   (505, "HTTP Version not supported")]

/-- `StatusCode::get_default_reason_phrase`: first-match lookup of the code in
the table above, `"Unknown"` for every code with no arm. -/
def StatusCode.getDefaultReasonPhrase (s : StatusCode) : String :=
  match reasonPhraseTable.lookup s.asU16 with
  | some p => p
  | none => "Unknown"

/-- `StatusCode::equiv`: numeric equality shortcut. -/
def StatusCode.equiv (s : StatusCode) (other : Nat) : Bool :=
  s.asU16 == other

/-- `pub struct HeaderField(String)`. -/
structure HeaderField where
  str : String
deriving DecidableEq

/-- `impl FromStr for HeaderField`: trims the input and always succeeds. -/
def HeaderField.fromStr (s : String) : Except Unit HeaderField :=
  .ok ⟨strTrim s⟩

/-- `impl PartialEq for HeaderField`: ASCII case-insensitive comparison of the
stored strings. -/
def HeaderField.eq (a b : HeaderField) : Bool :=
  eqIgnoreAsciiCase a.str.data b.str.data

/-- `HeaderField::equiv`: `other.eq_ignore_ascii_case(self.as_str())`. -/
def HeaderField.equiv (f : HeaderField) (other : String) : Bool :=
  eqIgnoreAsciiCase other.data f.str.data

/-- `pub struct Header { field, value }`. -/
structure Header where
  field : HeaderField
  value : String
deriving DecidableEq

/-- `input.splitn(2, ':')` distilled to the piece of information
`Header::from_str` extracts from it: `none` when the input holds no colon
(the iterator yields a single piece and the second `next()` is `None`),
otherwise the pieces before and after the first colon. -/
def splitFirstColon : List Char → Option (List Char × List Char)
  | [] => none
  | c :: rest =>
    if c = ':' then some ([], rest)
    else
      match splitFirstColon rest with
      | some (l, r) => some (c :: l, r)
      | none => none

/-- `impl FromStr for Header`: split on the first colon (error when there is
none), parse the left piece as a `HeaderField` (a branch that cannot fail),
store the right piece as the value verbatim. -/
def Header.fromStr (input : String) : Except Unit Header :=
  match splitFirstColon input.data with
  | none => .error ()
  | some (f, v) =>
    match HeaderField.fromStr ⟨f⟩ with
    | .ok field => .ok { field := field, value := ⟨v⟩ }
    | .error _ => .error ()

/-- `impl Display for Header`: `write!(formatter, "{}: {}", field, value)`. -/
def Header.displayString (h : Header) : String :=
  h.field.str ++ ": " ++ h.value

/-- `pub struct Method(String)`. -/
structure Method where
  str : String
deriving DecidableEq

/-- `impl FromStr for Method`: stores the token verbatim, always succeeds. -/
def Method.fromStr (s : String) : Except Unit Method :=
  .ok ⟨s⟩

/-- `impl PartialEq for Method`: ASCII case-insensitive comparison. -/
def Method.eq (a b : Method) : Bool :=
  eqIgnoreAsciiCase a.str.data b.str.data

/-- `Method::equiv`: `other.eq_ignore_ascii_case(self.as_str())`. -/
def Method.equiv (m : Method) (other : String) : Bool :=
  eqIgnoreAsciiCase other.data m.str.data

/-- `pub struct HTTPVersion(pub usize, pub usize)`. -/
structure HTTPVersion where
  major : Nat
  minor : Nat
deriving DecidableEq

/-- `usize::partial_cmp`: on unsigned integers the comparison is always
`Some`. -/
def natTryCompare (a b : Nat) : Option Ordering :=
  some (compare a b)

/-- The hand-written `impl PartialOrd for HTTPVersion`: compare the majors
when they differ, the minors otherwise. -/
def HTTPVersion.tryCompare (x y : HTTPVersion) : Option Ordering :=
  if x.major ≠ y.major then natTryCompare x.major y.major
  else natTryCompare x.minor y.minor

/-- The `derive(Ord)` instance on `HTTPVersion`: lexicographic comparison of
the fields in declaration order. -/
def HTTPVersion.derivedCmp (x y : HTTPVersion) : Ordering :=
  match compare x.major y.major with
  | .eq => compare x.minor y.minor
  | o => o

/-- Two strings are ASCII case-variants of the same token when they agree
character by character after ASCII case-folding. -/
def caseVariant (s1 s2 : String) : Prop :=
  s1.data.map asciiLower = s2.data.map asciiLower

instance (s1 s2 : String) : Decidable (caseVariant s1 s2) := by
  unfold caseVariant; infer_instance

/-! ### Helper lemmas -/

lemma string_mk_data : ∀ s : String, String.mk s.data = s :=
  fun ⟨_⟩ => rfl

lemma splitFirstColon_eq_none (l : List Char) :
    splitFirstColon l = none ↔ ':' ∉ l := by
  induction l with
  | nil => simp [splitFirstColon]
  | cons c rest ih =>
    by_cases hc : c = ':'
    · subst hc; simp [splitFirstColon]
    · cases hsp : splitFirstColon rest with
      | none => simp [splitFirstColon, hc, hsp, Ne.symm hc, ← ih]
      | some p => simp [splitFirstColon, hc, hsp, Ne.symm hc, ← ih, hsp]

lemma splitFirstColon_append (l1 l2 : List Char) (h : ':' ∉ l1) :
    splitFirstColon (l1 ++ ':' :: l2) = some (l1, l2) := by
  induction l1 with
  | nil => simp [splitFirstColon]
  | cons c rest ih =>
    have hc : c ≠ ':' := fun e => h (e ▸ List.mem_cons_self c rest)
    have hr : ':' ∉ rest := fun m => h (List.mem_cons_of_mem c m)
    simp [splitFirstColon, hc, ih hr]

lemma isWs_asciiLower (c : Char) : isWs (asciiLower c) = isWs c := by
  by_cases h : 65 ≤ c.toNat ∧ c.toNat ≤ 90
  · have hv : (c.toNat + 32).isValidChar := by
      left; omega
    have ht : (Char.ofNat (c.toNat + 32)).toNat = c.toNat + 32 := by
      rw [Char.ofNat, dif_pos hv]
      rfl
    have h1 : isWs (asciiLower c) = false := by
      simp only [asciiLower, if_pos h, isWs, ht]
      simp only [Bool.or_eq_false_iff, decide_eq_false_iff_not, Bool.and_eq_false_iff]
      omega
    have h2 : isWs c = false := by
      simp only [isWs]
      simp only [Bool.or_eq_false_iff, decide_eq_false_iff_not, Bool.and_eq_false_iff]
      omega
    rw [h1, h2]
  · simp [asciiLower, h]

lemma dropWhile_map_asciiLower (l : List Char) :
    (l.map asciiLower).dropWhile isWs = (l.dropWhile isWs).map asciiLower := by
  induction l with
  | nil => rfl
  | cons c rest ih =>
    by_cases h : isWs c
    · rw [List.map_cons, List.dropWhile_cons_of_pos (by rw [isWs_asciiLower]; exact h),
        List.dropWhile_cons_of_pos h, ih]
    · rw [List.map_cons, List.dropWhile_cons_of_neg (by rw [isWs_asciiLower]; exact h),
        List.dropWhile_cons_of_neg h, List.map_cons]

lemma listTrim_map_asciiLower (l : List Char) :
    (listTrim l).map asciiLower = listTrim (l.map asciiLower) := by
  unfold listTrim
  rw [List.map_reverse, ← dropWhile_map_asciiLower, List.map_reverse,
    ← dropWhile_map_asciiLower]

lemma eqIgnoreAsciiCase_iff (a b : List Char) :
    eqIgnoreAsciiCase a b = true ↔ a.map asciiLower = b.map asciiLower := by
  induction a generalizing b with
  | nil =>
    cases b with
    | nil => simp [eqIgnoreAsciiCase]
    | cons y ys => simp [eqIgnoreAsciiCase]
  | cons x xs ih =>
    cases b with
    | nil => simp [eqIgnoreAsciiCase]
    | cons y ys =>
      simp only [eqIgnoreAsciiCase, List.zip_cons_cons, List.all_cons, List.length_cons,
        List.map_cons, List.cons.injEq, Bool.and_eq_true, beq_iff_eq, Nat.add_right_cancel_iff]
      constructor
      · rintro ⟨hlen, hxy, hall⟩
        exact ⟨hxy, (ih ys).mp (by simp [eqIgnoreAsciiCase, hlen, hall])⟩
      · rintro ⟨hxy, htail⟩
        have := (ih ys).mpr htail
        simp only [eqIgnoreAsciiCase, Bool.and_eq_true, beq_iff_eq] at this
        exact ⟨this.1, hxy, this.2⟩

lemma eqIgnoreAsciiCase_eq_decide (a b : List Char) :
    eqIgnoreAsciiCase a b = decide (a.map asciiLower = b.map asciiLower) := by
  rw [Bool.eq_iff_iff]
  simp [eqIgnoreAsciiCase_iff]

lemma lookup_eq_none_of_notMem (t : List (Nat × String)) (n : Nat)
    (h : n ∉ t.map Prod.fst) : t.lookup n = none := by
  induction t with
  | nil => rfl
  | cons p rest ih =>
    simp only [List.map_cons, List.mem_cons, not_or] at h
    have hne : (n == p.1) = false := by
      simp [beq_eq_false_iff_ne]
      exact h.1
    cases p with
    | mk k v => simp only [List.lookup] at *; rw [hne]; exact ih h.2

/-! ### Claim theorems -/

/-- C1: evaluation of `Header::from_str` at the claimed inputs.  The split
does happen at the first colon, but the stored values are `" text/html"` and
`" 20: 34"`, keeping the space after the colon: the code never trims the
value, so the exact values `"text/html"` and `"20: 34"` claimed by the spec
(and asserted by the repository's own unit tests `test_parse_header` and
`test_parse_header_with_doublecolon`) do not match what the code produces. -/
theorem c1_value_keeps_leading_space :
    Header.fromStr "Content-Type: text/html" =
      .ok ⟨⟨"Content-Type"⟩, " text/html"⟩ ∧
    (" text/html" : String) ≠ "text/html" ∧
    Header.fromStr "Time: 20: 34" = .ok ⟨⟨"Time"⟩, " 20: 34"⟩ ∧
    (" 20: 34" : String) ≠ "20: 34" :=
  ⟨rfl, by decide, rfl, by decide⟩

/-- C2: evaluation of parse-then-format at the claimed input.  Because the
value keeps all whitespace that follows the first colon, parsing `"X:  value"`
(two spaces) and re-formatting yields `"X:   value"` (three spaces), not the
claimed `"X: value"`; likewise formatting `Header{field: "X", value:
"value"}` and re-parsing yields the value `" value"`, not `"value"`, so the
round trip changes the value by more than normalization to one space. -/
theorem c2_reformat_not_normalized :
    (Header.fromStr "X:  value").map Header.displayString = .ok "X:   value" ∧
    ("X:   value" : String) ≠ "X: value" ∧
    Header.fromStr (Header.displayString ⟨⟨"X"⟩, "value"⟩) =
      .ok ⟨⟨"X"⟩, " value"⟩ ∧
    (" value" : String) ≠ "value" :=
  ⟨rfl, by decide, rfl, by decide⟩

/-- C3: `Header::from_str` succeeds exactly on inputs that contain a colon,
returns the `Err(())` failure (`MalformedHeaderLine`) exactly on inputs with
no colon, and `HeaderField::from_str` always succeeds (so the field failure
branch of `Header::from_str` is unreachable). -/
theorem c3_parse_fails_iff_no_colon :
    (∀ s : String, (∃ h, Header.fromStr s = .ok h) ↔ ':' ∈ s.data) ∧
    (∀ s : String, Header.fromStr s = .error () ↔ ':' ∉ s.data) ∧
    (∀ s : String, HeaderField.fromStr s = .ok ⟨strTrim s⟩) := by
  have key : ∀ s : String, ':' ∈ s.data →
      ∃ h, Header.fromStr s = .ok h := by
    intro s hc
    cases hsp : splitFirstColon s.data with
    | none => exact absurd ((splitFirstColon_eq_none _).mp hsp) (not_not.mpr hc)
    | some p =>
      exact ⟨⟨⟨strTrim ⟨p.1⟩⟩, ⟨p.2⟩⟩,
        by simp [Header.fromStr, hsp, HeaderField.fromStr]⟩
  refine ⟨fun s => ⟨?_, key s⟩, fun s => ⟨?_, ?_⟩, fun s => rfl⟩
  · rintro ⟨h, hh⟩
    by_contra hc
    rw [Header.fromStr, (splitFirstColon_eq_none _).mpr hc] at hh
    exact Except.noConfusion hh
  · intro herr hc
    obtain ⟨h, hh⟩ := key s hc
    rw [herr] at hh
    exact Except.noConfusion hh
  · intro hc
    rw [Header.fromStr, (splitFirstColon_eq_none _).mpr hc]

/-- C4: for an input `"<name>:<rest>"` whose name part holds no colon, the
field is the `HeaderField`-parsed (whitespace-trimmed) name while the value is
exactly `<rest>`, untouched — any space after the colon included. -/
theorem c4_value_stored_untrimmed (name rest : String) (h : ':' ∉ name.data) :
    Header.fromStr (name ++ ":" ++ rest) = .ok ⟨⟨strTrim name⟩, rest⟩ := by
  have hd : (name ++ ":" ++ rest).data = name.data ++ ':' :: rest.data := by
    obtain ⟨l1⟩ := name
    obtain ⟨l2⟩ := rest
    show (l1 ++ [':'] ++ l2 : List Char) = l1 ++ ':' :: l2
    simp
  rw [Header.fromStr, hd, splitFirstColon_append _ _ h]
  simp [HeaderField.fromStr, string_mk_data]

/-- Witness for C4 at `name = "Content-Type"`, `rest = " text/html"`. -/
theorem c4_value_stored_untrimmed_witness :
    ':' ∉ "Content-Type".data ∧
    Header.fromStr ("Content-Type" ++ ":" ++ " text/html") =
      .ok ⟨⟨strTrim "Content-Type"⟩, " text/html"⟩ :=
  ⟨by decide, c4_value_stored_untrimmed "Content-Type" " text/html" (by decide)⟩

/-- C9: a line starting with a colon parses successfully for every value
string: the field is the empty-name `HeaderField` and the value is exactly
what follows the colon. -/
theorem c9_empty_field_accepted (v : String) :
    Header.fromStr (":" ++ v) = .ok ⟨⟨""⟩, v⟩ := by
  have hd : (":" ++ v).data = ':' :: v.data := by
    obtain ⟨l⟩ := v
    rfl
  have hsp : splitFirstColon (':' :: v.data) = some ([], v.data) := by
    simp [splitFirstColon]
  rw [Header.fromStr, hd, hsp]
  simp [HeaderField.fromStr, string_mk_data]
  rfl

/-- C5: `get_default_reason_phrase` returns the canonical phrase, byte for
byte, for every listed status code — the historical misspelling of 414
included — and `"Unknown"` for every 16-bit code that is not listed. -/
theorem c5_reason_phrases :
    ((StatusCode.fromNumeric 100).getDefaultReasonPhrase = "Continue" ∧
     (StatusCode.fromNumeric 101).getDefaultReasonPhrase = "Switching Protocols" ∧
     (StatusCode.fromNumeric 102).getDefaultReasonPhrase = "Processing" ∧
     (StatusCode.fromNumeric 118).getDefaultReasonPhrase = "Connection timed out" ∧
     (StatusCode.fromNumeric 200).getDefaultReasonPhrase = "OK" ∧
     (StatusCode.fromNumeric 201).getDefaultReasonPhrase = "Created" ∧
     (StatusCode.fromNumeric 202).getDefaultReasonPhrase = "Accepted" ∧
     (StatusCode.fromNumeric 203).getDefaultReasonPhrase = "Non-Authoritative Information" ∧
     (StatusCode.fromNumeric 204).getDefaultReasonPhrase = "No Content" ∧
     (StatusCode.fromNumeric 205).getDefaultReasonPhrase = "Reset Content" ∧
     (StatusCode.fromNumeric 206).getDefaultReasonPhrase = "Partial Content" ∧
     (StatusCode.fromNumeric 207).getDefaultReasonPhrase = "Multi-Status" ∧
     (StatusCode.fromNumeric 210).getDefaultReasonPhrase = "Content Different" ∧
     (StatusCode.fromNumeric 300).getDefaultReasonPhrase = "Multiple Choices" ∧
     (StatusCode.fromNumeric 301).getDefaultReasonPhrase = "Moved Permanently" ∧
     (StatusCode.fromNumeric 302).getDefaultReasonPhrase = "Found" ∧
     (StatusCode.fromNumeric 303).getDefaultReasonPhrase = "See Other" ∧
     (StatusCode.fromNumeric 304).getDefaultReasonPhrase = "Not Modified" ∧
     (StatusCode.fromNumeric 305).getDefaultReasonPhrase = "Use Proxy" ∧
     (StatusCode.fromNumeric 307).getDefaultReasonPhrase = "Temporary Redirect" ∧
     (StatusCode.fromNumeric 400).getDefaultReasonPhrase = "Bad Request" ∧
     (StatusCode.fromNumeric 401).getDefaultReasonPhrase = "Unauthorized" ∧
     (StatusCode.fromNumeric 402).getDefaultReasonPhrase = "Payment Required" ∧
     (StatusCode.fromNumeric 403).getDefaultReasonPhrase = "Forbidden" ∧
     (StatusCode.fromNumeric 404).getDefaultReasonPhrase = "Not Found" ∧
     (StatusCode.fromNumeric 405).getDefaultReasonPhrase = "Method Not Allowed" ∧
     (StatusCode.fromNumeric 406).getDefaultReasonPhrase = "Not Acceptable" ∧
     (StatusCode.fromNumeric 407).getDefaultReasonPhrase = "Proxy Authentication Required" ∧
     (StatusCode.fromNumeric 408).getDefaultReasonPhrase = "Request Time-out" ∧
     (StatusCode.fromNumeric 409).getDefaultReasonPhrase = "Conflict" ∧
     (StatusCode.fromNumeric 410).getDefaultReasonPhrase = "Gone" ∧
     (StatusCode.fromNumeric 411).getDefaultReasonPhrase = "Length Required" ∧
     (StatusCode.fromNumeric 412).getDefaultReasonPhrase = "Precondition Failed" ∧
     (StatusCode.fromNumeric 413).getDefaultReasonPhrase = "Request Entity Too Large" ∧
     (StatusCode.fromNumeric 414).getDefaultReasonPhrase = "Reques-URI Too Large" ∧
     (StatusCode.fromNumeric 415).getDefaultReasonPhrase = "Unsupported Media Type" ∧
     (StatusCode.fromNumeric 416).getDefaultReasonPhrase = "Request range not satisfiable" ∧
     (StatusCode.fromNumeric 417).getDefaultReasonPhrase = "Expectation Failed" ∧
     (StatusCode.fromNumeric 500).getDefaultReasonPhrase = "Internal Server Error" ∧
     (StatusCode.fromNumeric 501).getDefaultReasonPhrase = "Not Implemented" ∧
     (StatusCode.fromNumeric 502).getDefaultReasonPhrase = "Bad Gateway" ∧
     (StatusCode.fromNumeric 503).getDefaultReasonPhrase = "Service Unavailable" ∧
     (StatusCode.fromNumeric 504).getDefaultReasonPhrase = "Gateway Time-out" ∧
     (StatusCode.fromNumeric 505).getDefaultReasonPhrase = "HTTP Version not supported") ∧
    (∀ n : Nat, n < 2 ^ 16 →
      n ∉ [100, 101, 102, 118, 200, 201, 202, 203, 204, 205, 206, 207, 210,
           300, 301, 302, 303, 304, 305, 307, 400, 401, 402, 403, 404, 405,
           406, 407, 408, 409, 410, 411, 412, 413, 414, 415, 416, 417, 500,
           501, 502, 503, 504, 505] →
      (StatusCode.fromNumeric n).getDefaultReasonPhrase = "Unknown") := by
  constructor
  · decide
  · intro n hlt hmem
    have hk : reasonPhraseTable.map Prod.fst =
        [100, 101, 102, 118, 200, 201, 202, 203, 204, 205, 206, 207, 210,
         300, 301, 302, 303, 304, 305, 307, 400, 401, 402, 403, 404, 405,
         406, 407, 408, 409, 410, 411, 412, 413, 414, 415, 416, 417, 500,
         501, 502, 503, 504, 505] := by decide
    rw [← hk] at hmem
    have hmod : n % 2 ^ 16 = n := Nat.mod_eq_of_lt hlt
    rw [StatusCode.getDefaultReasonPhrase]
    rw [show (StatusCode.fromNumeric n).asU16 = n from hmod]
    rw [lookup_eq_none_of_notMem _ _ hmem]

/-- Witness for C5: the unlisted 16-bit code 999 maps to "Unknown". -/
theorem c5_reason_phrases_witness :
    (999 : Nat) < 2 ^ 16 ∧
    (StatusCode.fromNumeric 999).getDefaultReasonPhrase = "Unknown" :=
  ⟨by decide, c5_reason_phrases.2 999 (by decide) (by decide)⟩

/-- C6: `HeaderField` and `Method` parsing followed by `PartialEq::eq` is
ASCII case-insensitive: two case-variant inputs parse to equal values, and
`equiv` against any literal cannot tell the two results apart. -/
theorem c6_case_insensitive_eq (s1 s2 : String) (h : caseVariant s1 s2) :
    (∃ f1 f2, HeaderField.fromStr s1 = .ok f1 ∧ HeaderField.fromStr s2 = .ok f2 ∧
      HeaderField.eq f1 f2 = true ∧
      ∀ lit : String, f1.equiv lit = f2.equiv lit) ∧
    (∃ m1 m2, Method.fromStr s1 = .ok m1 ∧ Method.fromStr s2 = .ok m2 ∧
      Method.eq m1 m2 = true ∧
      ∀ lit : String, m1.equiv lit = m2.equiv lit) := by
  have htrim : (listTrim s1.data).map asciiLower = (listTrim s2.data).map asciiLower := by
    rw [listTrim_map_asciiLower, listTrim_map_asciiLower, h]
  refine ⟨⟨⟨strTrim s1⟩, ⟨strTrim s2⟩, rfl, rfl, ?_, ?_⟩,
    ⟨⟨s1⟩, ⟨s2⟩, rfl, rfl, ?_, ?_⟩⟩
  · rw [HeaderField.eq, eqIgnoreAsciiCase_iff]
    exact htrim
  · intro lit
    rw [HeaderField.equiv, HeaderField.equiv, eqIgnoreAsciiCase_eq_decide,
      eqIgnoreAsciiCase_eq_decide]
    show decide (_ = (listTrim s1.data).map asciiLower) =
      decide (_ = (listTrim s2.data).map asciiLower)
    rw [htrim]
  · rw [Method.eq, eqIgnoreAsciiCase_iff]
    exact h
  · intro lit
    rw [Method.equiv, Method.equiv, eqIgnoreAsciiCase_eq_decide,
      eqIgnoreAsciiCase_eq_decide]
    show decide (_ = s1.data.map asciiLower) = decide (_ = s2.data.map asciiLower)
    rw [h]

/-- Witness for C6 at the case-variant pair `"GeT"`, `"gEt"`. -/
theorem c6_case_insensitive_eq_witness :
    caseVariant "GeT" "gEt" ∧
    ((∃ f1 f2, HeaderField.fromStr "GeT" = .ok f1 ∧
        HeaderField.fromStr "gEt" = .ok f2 ∧ HeaderField.eq f1 f2 = true ∧
        ∀ lit : String, f1.equiv lit = f2.equiv lit) ∧
     (∃ m1 m2, Method.fromStr "GeT" = .ok m1 ∧
        Method.fromStr "gEt" = .ok m2 ∧ Method.eq m1 m2 = true ∧
        ∀ lit : String, m1.equiv lit = m2.equiv lit)) :=
  ⟨by decide, c6_case_insensitive_eq "GeT" "gEt" (by decide)⟩

/-- C7: the hand-written `PartialOrd` comparison of `HTTPVersion` is the
lexicographic total order on `(major, minor)`: it answers `eq` exactly on
equal pairs, `lt`/`gt` exactly per the lexicographic comparison, and it
orders the claimed examples `1.0 < 1.1 < 2.0` and `1.5 > 1.0`. -/
theorem c7_version_lexicographic_order :
    (∀ a b : HTTPVersion, a.tryCompare b = some .eq ↔ a = b) ∧
    (∀ a b : HTTPVersion, a.tryCompare b = some .lt ↔
      (a.major < b.major ∨ (a.major = b.major ∧ a.minor < b.minor))) ∧
    (∀ a b : HTTPVersion, a.tryCompare b = some .gt ↔
      (b.major < a.major ∨ (a.major = b.major ∧ b.minor < a.minor))) ∧
    HTTPVersion.tryCompare ⟨1, 0⟩ ⟨1, 1⟩ = some .lt ∧
    HTTPVersion.tryCompare ⟨1, 1⟩ ⟨2, 0⟩ = some .lt ∧
    HTTPVersion.tryCompare ⟨1, 5⟩ ⟨1, 0⟩ = some .gt := by
  refine ⟨?_, ?_, ?_, by decide, by decide, by decide⟩
  · intro a b
    by_cases hm : a.major = b.major
    · cases a; cases b
      simp_all [HTTPVersion.tryCompare, natTryCompare, Nat.compare_eq_eq]
    · cases a; cases b
      simp_all [HTTPVersion.tryCompare, natTryCompare, Nat.compare_eq_eq]
  · intro a b
    by_cases hm : a.major = b.major
    · simp [HTTPVersion.tryCompare, natTryCompare, hm, Nat.compare_eq_lt]
    · simp [HTTPVersion.tryCompare, natTryCompare, hm, Nat.compare_eq_lt]
  · intro a b
    by_cases hm : a.major = b.major
    · simp [HTTPVersion.tryCompare, natTryCompare, hm, Nat.compare_eq_gt]
    · have : ¬ b.major < a.major → a.major < b.major := by omega
      simp [HTTPVersion.tryCompare, natTryCompare, hm, Nat.compare_eq_gt]

/-- C8: narrowing construction followed by `as_u16` is the identity on the
16-bit range. -/
theorem c8_from_numeric_roundtrip (n : Nat) (h : n ≤ 65535) :
    (StatusCode.fromNumeric n).asU16 = n := by
  rw [StatusCode.fromNumeric, StatusCode.asU16]
  exact Nat.mod_eq_of_lt (by omega)

/-- Witness for C8 at `n = 404`. -/
theorem c8_from_numeric_roundtrip_witness :
    (404 : Nat) ≤ 65535 ∧ (StatusCode.fromNumeric 404).asU16 = 404 :=
  ⟨by decide, c8_from_numeric_roundtrip 404 (by decide)⟩

/-- C10: the hand-written `partial_cmp` of `HTTPVersion` is total — it always
answers `some` — and agrees with the `derive(Ord)` lexicographic comparison on
the `(major, minor)` fields. -/
theorem c10_tryCompare_total_eq_derived :
    ∀ a b : HTTPVersion, a.tryCompare b = some (a.derivedCmp b) := by
  intro a b
  by_cases hm : a.major = b.major
  · have he : compare a.major b.major = .eq := Nat.compare_eq_eq.mpr hm
    rw [HTTPVersion.tryCompare, HTTPVersion.derivedCmp, if_neg (not_not.mpr hm), he,
      natTryCompare]
  · cases hc : compare a.major b.major with
    | eq => exact absurd (Nat.compare_eq_eq.mp hc) hm
    | lt => rw [HTTPVersion.tryCompare, HTTPVersion.derivedCmp, if_pos hm, hc,
        natTryCompare, hc]
    | gt => rw [HTTPVersion.tryCompare, HTTPVersion.derivedCmp, if_pos hm, hc,
        natTryCompare, hc]

end TinyHttp
